import Mathlib

/-!
Verification of the RAG subsystem of the repository (src/rag_system.py and
src/openai_config.py) against its natural-language specification.

Python strings are modelled as lists of characters (`PyStr`), since Python 3
strings are sequences of code points and the chunker manipulates them by
length, slicing and concatenation.  Fallible provider calls are modelled as
`Except`-valued oracles, and the stateful ingestion loops as explicit state
passing over an `IngestState`.
-/

/-- A Python string: a sequence of code points. -/
abbrev PyStr := List Char

/-- The paragraph separator `"\n\n"` used by `_chunk_text` (rag_system.py:307). -/
def paraSep : PyStr := ['\n', '\n']

/-- Model of Python `text.split("\n\n")`: scan left to right, breaking at each
non-overlapping occurrence of the two-newline separator.  `acc` holds the
characters of the current field in reverse. -/
def splitParas : PyStr → PyStr → List PyStr
  | [], acc => [acc.reverse]
  | '\n' :: '\n' :: rest, acc => acc.reverse :: splitParas rest []
  | c :: rest, acc => splitParas rest (c :: acc)

/-- Model of the Python slice `s[-k:]` (used at rag_system.py:317 as
`current_chunk[-overlap:]`): for `k = 0` Python returns the whole string,
otherwise the last `min k (len s)` characters. -/
def pySliceLast (s : PyStr) (k : Nat) : PyStr :=
  if k = 0 then s else s.drop (s.length - k)

/-- The paragraph-accumulation loop of `RAGSystem._chunk_text`
(rag_system.py:311-328): if appending the next paragraph would push the
buffer past `chunkSize` and the buffer is non-empty, the buffer is emitted;
the next buffer is seeded with the last `overlap` characters of the emitted
chunk joined to the paragraph by `"\n\n"` when the chunk is longer than
`overlap`, and with the bare paragraph otherwise.  Otherwise the paragraph is
appended to the buffer (joined by `"\n\n"`), or starts it when empty.  The
final non-empty buffer is emitted.  The seed expression at
rag_system.py:316-319 is factored out as `seedOf`. -/
def seedOf (overlap : Nat) (c p : PyStr) : PyStr :=
  if c.length > overlap then pySliceLast c overlap ++ paraSep ++ p else p

def chunkLoop (chunkSize overlap : Nat) : List PyStr → PyStr → List PyStr
  | [], current => if current = [] then [] else [current]
  | p :: ps, current =>
    if current.length + p.length > chunkSize ∧ current ≠ [] then
      current :: chunkLoop chunkSize overlap ps (seedOf overlap current p)
    else
      chunkLoop chunkSize overlap ps (if current = [] then p else current ++ paraSep ++ p)

/-- Model of `RAGSystem._chunk_text` (rag_system.py:291-330): empty text gives
no chunks; otherwise the text is split on blank lines and fed through the
accumulation loop with an empty initial buffer. -/
def chunk_text (text : PyStr) (chunkSize overlap : Nat) : List PyStr :=
  if text = [] then [] else chunkLoop chunkSize overlap (splitParas text []) []

/-- Every chunk ever produced by the accumulation loop is non-empty: chunks
are emitted only from a buffer the loop guard has checked to be non-empty. -/
theorem chunkLoop_mem_ne_nil (chunkSize overlap : Nat) (ps : List PyStr) :
    ∀ (cur : PyStr), ∀ c ∈ chunkLoop chunkSize overlap ps cur, c ≠ [] := by
  induction ps with
  | nil =>
    intro cur c hc
    simp only [chunkLoop] at hc
    split at hc
    · simp at hc
    · rename_i h
      simp only [List.mem_singleton] at hc
      subst hc
      exact h
  | cons p ps ih =>
    intro cur c hc
    simp only [chunkLoop] at hc
    split at hc
    · rename_i hcond
      rcases List.mem_cons.mp hc with rfl | hc'
      · exact hcond.2
      · exact ih _ c hc'
    · exact ih _ c hc

/-- The running buffer only ever grows at its end, so a non-empty buffer is a
prefix of the first chunk the loop subsequently emits. -/
theorem chunkLoop_head_extends (chunkSize overlap : Nat) (ps : List PyStr) :
    ∀ (cur : PyStr), cur ≠ [] →
      ∃ rest, (chunkLoop chunkSize overlap ps cur).head? = some (cur ++ rest) := by
  induction ps with
  | nil =>
    intro cur hcur
    refine ⟨[], ?_⟩
    simp [chunkLoop, hcur]
  | cons p ps ih =>
    intro cur hcur
    simp only [chunkLoop]
    by_cases hcond : cur.length + p.length > chunkSize ∧ cur ≠ []
    · rw [if_pos hcond]
      exact ⟨[], by simp⟩
    · rw [if_neg hcond, if_neg hcur]
      obtain ⟨rest, hrest⟩ := ih (cur ++ paraSep ++ p) (by simp [hcur])
      refine ⟨paraSep ++ p ++ rest, ?_⟩
      rw [hrest]
      simp [List.append_assoc]

/-- Whatever buffer the loop subsequently emits first begins with the current
buffer (trivially when the buffer is empty). -/
theorem chunkLoop_head_prefix (chunkSize overlap : Nat) (ps : List PyStr) (cur : PyStr) :
    ∀ b ∈ (chunkLoop chunkSize overlap ps cur).head?, cur <+: b := by
  intro b hb
  by_cases hcur : cur = []
  · subst hcur
    exact List.nil_prefix
  · obtain ⟨rest, hrest⟩ := chunkLoop_head_extends chunkSize overlap ps cur hcur
    rw [hrest] at hb
    simp only [Option.mem_some_iff] at hb
    subst hb
    exact List.prefix_append cur rest

/-- Consecutive chunks produced by the loop are linked by the overlap seed:
the later one begins with `seedOf overlap c p` for the paragraph `p` that
triggered the split after chunk `c` was emitted. -/
theorem chunkLoop_chain (chunkSize overlap : Nat) (ps : List PyStr) :
    ∀ (cur : PyStr),
      List.Chain' (fun c c' => ∃ p ∈ ps, seedOf overlap c p <+: c')
        (chunkLoop chunkSize overlap ps cur) := by
  induction ps with
  | nil =>
    intro cur
    simp only [chunkLoop]
    split
    · exact List.chain'_nil
    · exact List.chain'_singleton cur
  | cons p ps ih =>
    intro cur
    simp only [chunkLoop]
    split
    · rw [List.chain'_cons']
      constructor
      · intro b hb
        exact ⟨p, List.mem_cons_self p ps, chunkLoop_head_prefix chunkSize overlap ps _ b hb⟩
      · exact (ih _).imp fun c c' ⟨q, hq, hpre⟩ => ⟨q, List.mem_cons_of_mem p hq, hpre⟩
    · exact (ih _).imp fun c c' ⟨q, hq, hpre⟩ => ⟨q, List.mem_cons_of_mem p hq, hpre⟩

/-- C2 (corrected): when appending paragraph `p` would push the non-empty
buffer past `chunkSize`, the buffer is emitted and the next buffer is
`seedOf overlap buffer p` — the last `overlap` characters of the emitted
chunk joined to `p` by a blank line when the chunk is strictly longer than
`overlap`, and the bare triggering paragraph (nothing carried over from the
emitted chunk) when the chunk's length is at most `overlap`; consequently in
`chunk_text` every chunk after the first begins with the seed computed from
its predecessor and some paragraph of the input. -/
theorem chunk_text_overlap_seeding :
    (∀ (chunkSize overlap : Nat) (ps : List PyStr) (cur p : PyStr),
        cur.length + p.length > chunkSize → cur ≠ [] →
        chunkLoop chunkSize overlap (p :: ps) cur
          = cur :: chunkLoop chunkSize overlap ps (seedOf overlap cur p))
    ∧ (∀ (text : PyStr) (chunkSize overlap : Nat),
        List.Chain' (fun c c' => ∃ p ∈ splitParas text [], seedOf overlap c p <+: c')
          (chunk_text text chunkSize overlap)) := by
  constructor
  · intro chunkSize overlap ps cur p hgt hne
    simp only [chunkLoop]
    rw [if_pos ⟨hgt, hne⟩]
  · intro text chunkSize overlap
    unfold chunk_text
    split
    · exact List.chain'_nil
    · exact chunkLoop_chain chunkSize overlap (splitParas text []) []

/-- Witness for C2's amended theorem at a concrete split: buffer `"aa"`,
paragraph `"bbbb"`, `chunk_size = 5`, `overlap = 10`. -/
theorem chunk_text_overlap_seeding_wit :
    chunkLoop 5 10 [['b', 'b', 'b', 'b']] ['a', 'a']
      = ['a', 'a'] :: chunkLoop 5 10 [] (seedOf 10 ['a', 'a'] ['b', 'b', 'b', 'b']) :=
  chunk_text_overlap_seeding.1 5 10 [] ['a', 'a'] ['b', 'b', 'b', 'b'] (by decide) (by decide)

/-- C2 counterexample: with `chunk_size = 5` and `overlap = 10`, the text
`"aa\n\nbbbb"` splits after the 2-character chunk `"aa"`; since the emitted
chunk is shorter than `overlap`, the code seeds the next buffer with the bare
paragraph, so the second chunk does not begin with the just-emitted chunk as
the claim states. -/
theorem chunk_text_overlap_seeding_cex :
    chunk_text ('a' :: 'a' :: '\n' :: '\n' :: ['b', 'b', 'b', 'b']) 5 10
        = [['a', 'a'], ['b', 'b', 'b', 'b']]
    ∧ List.isPrefixOf (['a', 'a'] : PyStr) ['b', 'b', 'b', 'b'] = false := by decide

/-- C4 (corrected): every chunk returned by `chunk_text` is a non-empty
string.  (The claimed length bound `chunk_size` does not hold; see the
counterexample.) -/
theorem chunk_text_chunks_ne_nil (text : PyStr) (chunkSize overlap : Nat) :
    ∀ c ∈ chunk_text text chunkSize overlap, c ≠ [] := by
  unfold chunk_text
  split
  · simp
  · exact chunkLoop_mem_ne_nil chunkSize overlap (splitParas text []) []

/-- Witness for C4's amended theorem: the single chunk of `"a"` is non-empty. -/
theorem chunk_text_chunks_ne_nil_wit :
    (['a'] : PyStr) ∈ chunk_text ['a'] 5 2 ∧ (['a'] : PyStr) ≠ [] :=
  ⟨by decide, chunk_text_chunks_ne_nil ['a'] 5 2 ['a'] (by decide)⟩

set_option maxRecDepth 100000

/-- C4 counterexample: a single paragraph of 1001 characters with the default
`chunk_size = 1000` is returned as one chunk of length 1001, exceeding
`chunk_size` — paragraphs longer than the limit are never split. -/
theorem chunk_text_chunks_cex :
    chunk_text (List.replicate 1001 'a') 1000 200 = [List.replicate 1001 'a']
    ∧ ¬ (List.replicate 1001 'a').length ≤ 1000 := by decide

/-- First paragraph of the C6 scenario: 400 characters. -/
def para1 : PyStr := List.replicate 400 'a'

/-- Second paragraph of the C6 scenario: 500 characters. -/
def para2 : PyStr := List.replicate 500 'b'

/-- Third paragraph of the C6 scenario: 400 characters. -/
def para3 : PyStr := List.replicate 400 'c'

/-- The C6 scenario document: three paragraphs separated by blank lines. -/
def doc3 : PyStr := para1 ++ paraSep ++ para2 ++ paraSep ++ para3

/-- C6 (corrected): chunking the 400/500/400 three-paragraph document with
`chunk_size = 1000, overlap = 200` produces exactly two chunks; chunk 1 is
paragraphs 1 and 2 joined by the blank-line separator (902 characters, not
900, because the separator is included), and chunk 2 is the last 200
characters of chunk 1, a blank-line separator, then paragraph 3 (602
characters, not 600). -/
theorem chunk_text_three_paragraphs :
    chunk_text doc3 1000 200
        = [para1 ++ paraSep ++ para2,
           pySliceLast (para1 ++ paraSep ++ para2) 200 ++ paraSep ++ para3]
    ∧ (chunk_text doc3 1000 200).map List.length = [902, 602] := by decide

/-- C6 counterexample: the two chunks have lengths 902 and 602, not the 900
and 600 the claim states (the `"\n\n"` joins are not counted by the claim). -/
theorem chunk_text_three_paragraphs_cex :
    (chunk_text doc3 1000 200).map List.length = [902, 602]
    ∧ (chunk_text doc3 1000 200).map List.length ≠ [900, 600] := by decide


/-- The exception classes thrown by the provider SDK that the code
distinguishes (openai_config.py:67-75 lists the transient ones). -/
inductive ApiError where
  | rateLimit
  | timeout
  | connection
  | badRequest
  | authFailure
  | other
deriving DecidableEq, Repr

/-- An embedding vector.  Components are modelled as integers; none of the
verified claims depends on the numeric values. -/
abbrev Vec := List Int

/-- `EMBEDDING_DIMENSION` (rag_system.py:31). -/
def EMBEDDING_DIMENSION : Nat := 1536

/-- The stub vector built by `np.random.rand(EMBEDDING_DIMENSION)`
(rag_system.py:345): the pseudo-random generator is modelled as an arbitrary
component function `g`; the vector always has the default dimensionality. -/
def randVec (g : Nat → Int) : Vec :=
  (List.range EMBEDDING_DIMENSION).map g

/-- An embedding provider: for a text and a (1-based) attempt number, the
outcome of the underlying `embeddings.create` API call. -/
abbrev Provider := PyStr → Nat → Except ApiError Vec

/-- Model of `RAGSystem._get_embedding` (rag_system.py:332-355): without a
configured client it returns the pseudo-random stub vector; with a client it
makes exactly one provider call (`self.openai_client.client.embeddings.create`
is the raw SDK client, not the retrying wrapper) and maps an exception to
`None`. -/
def get_embedding (client : Bool) (provider : Provider) (g : Nat → Int) (text : PyStr) :
    Option Vec :=
  if client then
    match provider text 1 with
    | .ok v => some v
    | .error _ => none
  else some (randVec g)

/-- One record of the Document Store (rag_system.py:95-103, 134-142,
184-193): chunk records carry a `chunk_id`, report-section records a
`section`; `metadata` is the nested string-valued mapping. -/
structure DocRecord where
  content : PyStr
  source : String
  chunkId : Option Nat
  sectionName : Option String
  metadata : List (String × String)
deriving DecidableEq, Repr

/-- The mutable state built by ingestion: the FAISS index as the ordered
list of inserted vectors, and `self.documents` as the insertion-ordered
key/record list of the Python dict. -/
structure IngestState where
  index : List Vec
  documents : List (String × DocRecord)
deriving DecidableEq, Repr

/-- Python dict assignment `d[k] = r`: overwrite in place when the key is
present (keeping its original position), append otherwise. -/
def dictInsert (d : List (String × DocRecord)) (k : String) (r : DocRecord) :
    List (String × DocRecord) :=
  if d.any (fun p => p.1 == k) then
    d.map (fun p => if p.1 == k then (k, r) else p)
  else d ++ [(k, r)]

/-- Chunk document ids `f"{stem}_{i}"` (rag_system.py:94, 133). -/
def chunkDocId (stem : String) (i : Nat) : String := stem ++ "_" ++ toString i

/-- The record stored for chunk `i` of a markdown file (rag_system.py:95-103
and 134-142). -/
def mkChunkRecord (src : String) (i : Nat) (c : PyStr) : DocRecord :=
  { content := c, source := src, chunkId := some i, sectionName := none,
    metadata := [("type", "documentation"), ("file", src)] }

/-- The record stored for one named section of an analysis or comparison
report (rag_system.py:184-193, 231-240, 273-281). -/
def mkSectionRecord (source : String) (tool : Option String) (name : String) (c : PyStr) :
    DocRecord :=
  { content := c, source := source, chunkId := none, sectionName := some name,
    metadata :=
      [("type", if tool.isSome then "analysis" else "comparison")]
        ++ (match tool with | some t => [("tool", t)] | none => [])
        ++ [("section", name)] }

/-- The id/record pairs produced for the chunks of `README.md`
(rag_system.py:93-103). -/
def readmeItems (chunks : List PyStr) : List (String × DocRecord) :=
  chunks.enum.map fun p => (chunkDocId "readme" p.1, mkChunkRecord "README.md" p.1 p.2)

/-- The id/record pairs produced for the chunks of any other markdown file
(rag_system.py:132-142). -/
def docItems (stem src : String) (chunks : List PyStr) : List (String × DocRecord) :=
  chunks.enum.map fun p => (chunkDocId stem p.1, mkChunkRecord src p.1 p.2)

/-- The id/record pairs produced for a report's sections: empty sections are
skipped (`if content:` at rag_system.py:182, 229, 271), ids are
`f"{prefix}_{section_name}"`. -/
def sectionItems (pfx source : String) (tool : Option String)
    (sections : List (String × PyStr)) : List (String × DocRecord) :=
  (sections.filter fun s => ¬ s.2.isEmpty).map fun s =>
    (pfx ++ "_" ++ s.1, mkSectionRecord source tool s.1 s.2)

/-- One iteration of the per-item ingestion loop shared by all four source
kinds (rag_system.py:93-113, 132-148, 181-199, 228-246, 270-287): store the
record in `self.documents`, then, only when a client is configured, call
`_get_embedding` and append the vector to the index when the call returned a
vector.  `readmeFirst` selects the README variant (rag_system.py:109-113),
which replaces the index by a fresh one holding just the new vector when the
record just stored is the only one in the store. -/
def ingestStep (client : Bool) (provider : Provider) (g : Nat → Int) (readmeFirst : Bool)
    (docId : String) (rec : DocRecord) (st : IngestState) : IngestState :=
  if client then
    match get_embedding true provider g rec.content with
    | some v =>
      if readmeFirst ∧ (dictInsert st.documents docId rec).length = 1 then
        ⟨[v], dictInsert st.documents docId rec⟩
      else
        ⟨st.index ++ [v], dictInsert st.documents docId rec⟩
    | none => ⟨st.index, dictInsert st.documents docId rec⟩
  else ⟨st.index, dictInsert st.documents docId rec⟩

/-- The ingestion loop over a batch of id/record pairs. -/
def ingestItems (client : Bool) (provider : Provider) (g : Nat → Int) (readmeFirst : Bool) :
    List (String × DocRecord) → IngestState → IngestState
  | [], st => st
  | (docId, rec) :: items, st =>
    ingestItems client provider g readmeFirst items
      (ingestStep client provider g readmeFirst docId rec st)

/-- The number of items of a batch whose embedding call succeeds: zero when
no client is configured (the call is never made), otherwise the number of
items whose single provider call returns a vector. -/
def succCount (client : Bool) (provider : Provider) (g : Nat → Int)
    (items : List (String × DocRecord)) : Nat :=
  if client then
    items.countP fun it => (get_embedding true provider g it.2.content).isSome
  else 0

/-- The insertion-ordered key list of the Document Store. -/
def storeKeys (d : List (String × DocRecord)) : List String := d.map Prod.fst

/-- Inserting under a key not yet present appends the pair at the end. -/
theorem dictInsert_fresh {d : List (String × DocRecord)} {k : String} {r : DocRecord}
    (h : k ∉ storeKeys d) : dictInsert d k r = d ++ [(k, r)] := by
  unfold dictInsert
  rw [if_neg]
  intro hany
  obtain ⟨p, hp, hbeq⟩ := List.any_eq_true.mp hany
  exact h (List.mem_map.mpr ⟨p, hp, eq_of_beq hbeq⟩)

/-- Every branch of the ingestion step stores the record; under a fresh id it
is appended at the end of the store. -/
theorem ingestStep_documents (client : Bool) (provider : Provider) (g : Nat → Int)
    (readmeFirst : Bool) (docId : String) (rec : DocRecord) (st : IngestState)
    (h : docId ∉ storeKeys st.documents) :
    (ingestStep client provider g readmeFirst docId rec st).documents
      = st.documents ++ [(docId, rec)] := by
  unfold ingestStep
  rw [dictInsert_fresh h]
  split
  · split
    · split <;> rfl
    · rfl
  · rfl

/-- In the non-README variant the step appends the embedding's vector (if
any) to the index; with no client the index is untouched. -/
theorem ingestStep_false_index (client : Bool) (provider : Provider) (g : Nat → Int)
    (docId : String) (rec : DocRecord) (st : IngestState) :
    (ingestStep client provider g false docId rec st).index
      = st.index
          ++ (if client then (get_embedding true provider g rec.content).toList else []) := by
  unfold ingestStep
  split
  · split
    · rename_i v hv
      simp [hv]
    · rename_i hv
      simp [hv]
  · simp

/-- `succCount` over a cons. -/
theorem succCount_cons (client : Bool) (provider : Provider) (g : Nat → Int)
    (it : String × DocRecord) (items : List (String × DocRecord)) :
    succCount client provider g (it :: items)
      = succCount client provider g items
        + (if client then
             (if (get_embedding true provider g it.2.content).isSome then 1 else 0)
           else 0) := by
  unfold succCount
  by_cases hc : client = true
  · subst hc
    simp [List.countP_cons]
  · simp at hc
    subst hc
    simp

/-- Counting invariant of the non-README ingestion loop: under fresh ids the
store grows by one record per item and the index by one vector per item whose
embedding call succeeded. -/
theorem ingestItems_false_counts (client : Bool) (provider : Provider) (g : Nat → Int)
    (items : List (String × DocRecord)) :
    ∀ st : IngestState, (storeKeys st.documents ++ items.map Prod.fst).Nodup →
      (ingestItems client provider g false items st).documents.length
          = st.documents.length + items.length
      ∧ (ingestItems client provider g false items st).index.length
          = st.index.length + succCount client provider g items := by
  induction items with
  | nil =>
    intro st _
    constructor
    · simp [ingestItems]
    · simp [ingestItems, succCount]
  | cons it items ih =>
    intro st hnd
    obtain ⟨docId, rec⟩ := it
    have hparts := List.nodup_append.mp hnd
    have hfresh : docId ∉ storeKeys st.documents := by
      intro hmem
      exact hparts.2.2 hmem (by simp)
    have hdocs := ingestStep_documents client provider g false docId rec st hfresh
    have hidx := ingestStep_false_index client provider g docId rec st
    have hnd' : (storeKeys (ingestStep client provider g false docId rec st).documents
        ++ items.map Prod.fst).Nodup := by
      rw [hdocs]
      unfold storeKeys
      simp only [List.map_append, List.map_cons, List.map_nil, List.append_assoc,
        List.singleton_append] at hnd ⊢
      exact hnd
    obtain ⟨hlen, hilen⟩ := ih (ingestStep client provider g false docId rec st) hnd'
    simp only [ingestItems]
    constructor
    · rw [hlen, hdocs]
      simp
      omega
    · rw [hilen, hidx, succCount_cons]
      by_cases hc : client = true
      · subst hc
        simp only [if_pos rfl]
        cases hemb : get_embedding true provider g rec.content
        all_goals simp [hemb]
        all_goals omega
      · simp at hc
        subst hc
        simp

/-- The README variant of the step coincides with the plain one whenever the
store is non-empty, or the store and index are both empty (as at the start of
`initialize`): the index-recreation branch fires only for the very first
record, when the index holds no vectors anyway. -/
theorem ingestStep_readme_eq (client : Bool) (provider : Provider) (g : Nat → Int)
    (docId : String) (rec : DocRecord) (st : IngestState)
    (hfresh : docId ∉ storeKeys st.documents)
    (hemp : st.documents = [] → st.index = []) :
    ingestStep client provider g true docId rec st
      = ingestStep client provider g false docId rec st := by
  unfold ingestStep
  split
  · split
    · rename_i v hv
      rw [dictInsert_fresh hfresh]
      by_cases hdoc : st.documents = []
      · rw [if_pos]
        · rw [hemp hdoc]
          simp
        · simp [hdoc]
      · rw [if_neg]
        · rw [if_neg (by simp)]
        · intro hcontra
          have hlen := hcontra.2
          simp only [List.length_append, List.length_cons, List.length_nil] at hlen
          exact hdoc (List.length_eq_zero.mp (by omega))
    · rfl
  · rfl

/-- The README loop coincides with the plain loop from any state satisfying
the same side conditions. -/
theorem ingestItems_readme_eq (client : Bool) (provider : Provider) (g : Nat → Int)
    (items : List (String × DocRecord)) :
    ∀ st : IngestState, (storeKeys st.documents ++ items.map Prod.fst).Nodup →
      (st.documents = [] → st.index = []) →
      ingestItems client provider g true items st
        = ingestItems client provider g false items st := by
  induction items with
  | nil =>
    intro st _ _
    rfl
  | cons it items ih =>
    intro st hnd hemp
    obtain ⟨docId, rec⟩ := it
    have hparts := List.nodup_append.mp hnd
    have hfresh : docId ∉ storeKeys st.documents := by
      intro hmem
      exact hparts.2.2 hmem (by simp)
    have hdocs := ingestStep_documents client provider g false docId rec st hfresh
    have hnd' : (storeKeys (ingestStep client provider g false docId rec st).documents
        ++ items.map Prod.fst).Nodup := by
      rw [hdocs]
      unfold storeKeys
      simp only [List.map_append, List.map_cons, List.map_nil, List.append_assoc,
        List.singleton_append] at hnd ⊢
      exact hnd
    simp only [ingestItems]
    rw [ingestStep_readme_eq client provider g docId rec st hfresh hemp]
    exact ih (ingestStep client provider g false docId rec st) hnd'
      (by rw [hdocs]; simp)

/-- C1 (corrected): provided every generated document id is fresh and they
are pairwise distinct, each ingestion loop adds exactly one store record per
item and exactly one index vector per item whose embedding call succeeded
(no call is made, and no vector added, without a client); the same holds for
the README loop started from the empty state `initialize` gives it; and an
item whose embedding call fails still has its record stored while the index
is left untouched.  In particular the index never outgrows the store under
fresh ids — with colliding ids it can, see the counterexample. -/
theorem ingest_index_store_alignment :
    (∀ (client : Bool) (provider : Provider) (g : Nat → Int)
        (items : List (String × DocRecord)) (st : IngestState),
        (storeKeys st.documents ++ items.map Prod.fst).Nodup →
        (ingestItems client provider g false items st).documents.length
            = st.documents.length + items.length
        ∧ (ingestItems client provider g false items st).index.length
            = st.index.length + succCount client provider g items
        ∧ succCount client provider g items ≤ items.length)
    ∧ (∀ (client : Bool) (provider : Provider) (g : Nat → Int)
        (items : List (String × DocRecord)),
        (items.map Prod.fst).Nodup →
        (ingestItems client provider g true items ⟨[], []⟩).documents.length = items.length
        ∧ (ingestItems client provider g true items ⟨[], []⟩).index.length
            = succCount client provider g items
        ∧ (ingestItems client provider g true items ⟨[], []⟩).index.length
            ≤ (ingestItems client provider g true items ⟨[], []⟩).documents.length)
    ∧ (∀ (provider : Provider) (g : Nat → Int) (readmeFirst : Bool)
        (docId : String) (rec : DocRecord) (st : IngestState),
        docId ∉ storeKeys st.documents →
        get_embedding true provider g rec.content = none →
        ingestStep true provider g readmeFirst docId rec st
          = ⟨st.index, st.documents ++ [(docId, rec)]⟩) := by
  refine ⟨?_, ?_, ?_⟩
  · intro client provider g items st hnd
    obtain ⟨h1, h2⟩ := ingestItems_false_counts client provider g items st hnd
    refine ⟨h1, h2, ?_⟩
    unfold succCount
    split
    · exact List.countP_le_length _
    · exact Nat.zero_le _
  · intro client provider g items hnd
    have hnd0 : (storeKeys (⟨[], []⟩ : IngestState).documents ++ items.map Prod.fst).Nodup := by
      simpa [storeKeys] using hnd
    rw [ingestItems_readme_eq client provider g items ⟨[], []⟩ hnd0 (fun _ => rfl)]
    obtain ⟨h1, h2⟩ := ingestItems_false_counts client provider g items ⟨[], []⟩ hnd0
    simp only at h1 h2
    refine ⟨by simpa using h1, by simpa using h2, ?_⟩
    rw [h1, h2]
    simp only [List.length_nil, Nat.zero_add]
    unfold succCount
    split
    · exact List.countP_le_length _
    · exact Nat.zero_le _
  · intro provider g readmeFirst docId rec st hfresh hemb
    unfold ingestStep
    rw [if_pos rfl, hemb, dictInsert_fresh hfresh]

/-- The three exception types tenacity is told to retry
(openai_config.py:68-72): rate limit, API timeout, API connection error. -/
def isTransient : ApiError → Bool
  | .rateLimit => true
  | .timeout => true
  | .connection => true
  | _ => false

/-- How a wrapped call can ultimately fail: a non-retried exception
propagates (`raised`), or the attempt budget is exhausted on transient
errors (`exhausted`, tenacity's `RetryError`). -/
inductive RetryError where
  | raised (e : ApiError)
  | exhausted (e : ApiError)
deriving DecidableEq, Repr

/-- The tenacity retry loop: run attempt number `attempt`; a success returns,
a non-transient error propagates at once, a transient error retries while
`fuel` attempts remain. -/
def retryAux (call : Nat → Except ApiError α) (attempt : Nat) (fuel : Nat) :
    Except RetryError α :=
  match call attempt with
  | .ok v => .ok v
  | .error e =>
    if isTransient e then
      match fuel with
      | 0 => .error (.exhausted e)
      | f + 1 => retryAux call (attempt + 1) f
    else .error (.raised e)
termination_by fuel

/-- Model of `OpenAIClient.chat_completion` (openai_config.py:67-135): the
underlying chat API call wrapped in
`retry(retry_if_exception_type((RateLimitError, APITimeoutError,
APIConnectionError)), wait_exponential(...), stop_after_attempt(5))` —
at most 5 attempts, numbered from 1. -/
def chat_completion (call : Nat → Except ApiError α) : Except RetryError α :=
  retryAux call 1 4

/-- The nominal wait before the retry that follows failed attempt `n`,
modelling `wait_exponential(multiplier=1, min=2, max=60)`
(openai_config.py:73). -/
def waitExp (n : Nat) : Nat := min 60 (max 2 (2 ^ (n - 1)))

/-- C3 (corrected): the bounded exponential-backoff retry applies to the
chat-completion call only.  For `chat_completion`: a non-transient first
error propagates immediately without retry, and transient errors on attempts
1 and 2 followed by success on attempt 3 yield the attempt-3 result with no
error; every nominal backoff wait is bounded between 2 and 60 seconds.  The
embedding call in `_get_embedding`, however, is made on the raw SDK client
with no retry: a single provider error on attempt 1 makes `_get_embedding`
return `None` regardless of what later attempts would do, so the claimed
retry scenario does not hold for embeddings (see the counterexample). -/
theorem retry_policy {α : Type} :
    (∀ (call : Nat → Except ApiError α) (e : ApiError),
        isTransient e = false → call 1 = .error e →
        chat_completion call = .error (.raised e))
    ∧ (∀ (call : Nat → Except ApiError α) (v : α),
        call 1 = .error .timeout → call 2 = .error .timeout → call 3 = .ok v →
        chat_completion call = .ok v)
    ∧ (∀ (provider : Provider) (g : Nat → Int) (text : PyStr) (e : ApiError),
        provider text 1 = .error e →
        get_embedding true provider g text = none)
    ∧ (∀ n : Nat, 2 ≤ waitExp n ∧ waitExp n ≤ 60) := by
  refine ⟨?_, ?_, ?_, ?_⟩
  · intro call e htr hcall
    unfold chat_completion retryAux
    rw [hcall]
    simp [htr]
  · intro call v h1 h2 h3
    unfold chat_completion
    unfold retryAux
    rw [h1]
    simp only [isTransient]
    unfold retryAux
    rw [h2]
    simp only [isTransient]
    unfold retryAux
    rw [h3]
    simp
  · intro provider g text e hcall
    unfold get_embedding
    rw [if_pos rfl, hcall]
  · intro n
    constructor
    · exact le_min (by norm_num) (le_max_left 2 _)
    · exact min_le_left 60 _

/-- Witness for C3's amended theorem: a chat call failing with a timeout on
attempts 1 and 2 and succeeding with value 7 on attempt 3 returns 7, and a
bad-request error on attempt 1 propagates immediately. -/
theorem retry_policy_wit :
    chat_completion (fun n => if n ≤ 2 then .error .timeout else .ok (7 : Nat)) = .ok 7
    ∧ chat_completion (fun _ => (.error .badRequest : Except ApiError Nat))
        = .error (.raised .badRequest) :=
  ⟨retry_policy.2.1 (fun n => if n ≤ 2 then .error .timeout else .ok 7) 7 rfl rfl rfl,
   retry_policy.1 (fun _ => .error .badRequest) .badRequest rfl rfl⟩

/-- C3 counterexample: the embedding provider times out on attempts 1 and 2
and would succeed with `[7]` on attempt 3, but `_get_embedding` makes only a
single un-retried call and returns `None` — not the attempt-3 embedding the
claim promises. -/
theorem retry_policy_cex :
    get_embedding true (fun _ n => if n ≤ 2 then .error .timeout else .ok [7])
        (fun _ => 0) ['q'] = none
    ∧ (fun _ n => if n ≤ 2 then .error .timeout else .ok [7] : Provider) ['q'] 3 = .ok [7]
    ∧ (none : Option Vec) ≠ some [7] := by
  refine ⟨?_, rfl, by decide⟩
  unfold get_embedding
  rw [if_pos rfl]
  simp

/-- A provider whose embedding call succeeds for the one-character text `"x"`
and times out for everything else. -/
def provMixed : Provider := fun t _ => if t = ['x'] then .ok [1] else .error .timeout

/-- A provider whose embedding call always succeeds with the vector `[0]`. -/
def provOkZero : Provider := fun _ _ => .ok [0]

/-- A fixed stub pseudo-random generator. -/
def gZero : Nat → Int := fun _ => 0

/-- The two-chunk item batch used to witness C1: one chunk embeds, one fails. -/
def itemsTwo : List (String × DocRecord) := docItems "a" "a.md" [['x'], ['y']]

/-- Witness for C1's amended theorem: ingesting two fresh-id chunks, one with
a successful embedding and one with a failing one, stores two records and
adds one vector. -/
theorem ingest_index_store_alignment_wit :
    (ingestItems true provMixed gZero false itemsTwo ⟨[], []⟩).documents.length
        = (⟨[], []⟩ : IngestState).documents.length + itemsTwo.length
    ∧ (ingestItems true provMixed gZero false itemsTwo ⟨[], []⟩).index.length
        = (⟨[], []⟩ : IngestState).index.length + succCount true provMixed gZero itemsTwo
    ∧ succCount true provMixed gZero itemsTwo ≤ itemsTwo.length :=
  ingest_index_store_alignment.1 true provMixed gZero itemsTwo ⟨[], []⟩ (by decide)

/-- The state after ingesting two markdown files that share the stem
`guide` (`docs/guide.md` then `notes/guide.md`), both with one chunk and a
succeeding embedding: the second record overwrites the first under the
colliding id `guide_0`. -/
def collideState : IngestState :=
  ingestItems true provOkZero gZero false (docItems "guide" "notes/guide.md" [['y']])
    (ingestItems true provOkZero gZero false (docItems "guide" "docs/guide.md" [['x']]) ⟨[], []⟩)

/-- C1 counterexample: when two ingested markdown files share a file stem,
their chunk ids collide, the second record overwrites the first in the
Document Store while both embeddings are appended to the index, and the
index entry count (2) exceeds the Document Store record count (1). -/
theorem ingest_index_store_alignment_cex :
    collideState.documents.length = 1 ∧ collideState.index.length = 2
    ∧ ¬ collideState.index.length ≤ collideState.documents.length := by decide

/-- Squared L2 distance between two vectors, the ranking key of a FAISS
`IndexFlatL2` (which returns squared Euclidean distances). -/
def sqL2 (q v : Vec) : Int := ((q.zip v).map fun p => (p.1 - p.2) ^ 2).sum

/-- `index.search(q, k)` on a flat L2 index: every stored vector is scored
by (squared) L2 distance to the query, results are ranked by ascending
distance — stably, so ties keep insertion order — and the first `k` are
returned as (insertion position, distance) pairs. -/
def searchFlat (vecs : List Vec) (q : Vec) (k : Nat) : List (Nat × Int) :=
  ((vecs.enum.map fun p => (p.1, sqL2 q p.2)).mergeSort fun a b => a.2 ≤ b.2).take k

/-- The search call made by `RAGSystem.query` (rag_system.py:416-419): `k` is
clamped to the index size by `min(top_k, self.index.ntotal)`. -/
def rag_search (vecs : List Vec) (q : Vec) (top_k : Nat) : List (Nat × Int) :=
  searchFlat vecs q (min top_k vecs.length)

/-- Display name of a provider error, standing in for Python's `str(e)`. -/
def apiErrorName : ApiError → String
  | .rateLimit => "rate limit"
  | .timeout => "timeout"
  | .connection => "connection error"
  | .badRequest => "bad request"
  | .authFailure => "authentication failure"
  | .other => "error"

/-- Display name of a failure of the retrying chat wrapper. -/
def retryErrorName : RetryError → String
  | .raised e => apiErrorName e
  | .exhausted e => "RetryError: " ++ apiErrorName e

/-- The value returned by `RAGSystem.query`: an answer string and the
de-duplicated `{source, metadata}` citations. -/
structure QueryResult where
  answer : String
  sources : List (String × List (String × String))
deriving DecidableEq, Repr

/-- The fixed answer when no client is configured (rag_system.py:397). -/
def clientUnavailableMsg : String :=
  "OpenAI client not available. Please set OPENAI_API_KEY environment variable."

/-- The fixed answer on an uninitialized system (rag_system.py:403). -/
def notInitializedMsg : String :=
  "RAG system not initialized. Please run initialize() first."

/-- The fixed answer when embedding the question fails (rag_system.py:411). -/
def embedFailMsg : String :=
  "Failed to generate embedding for the question."

/-- First-seen-order de-duplication of `{source, metadata}` pairs
(rag_system.py:468-475). -/
def dedupSources (l : List (String × List (String × String))) :
    List (String × List (String × String)) :=
  l.foldl (fun acc s => if s ∈ acc then acc else acc ++ [s]) []

/-- Model of `RAGSystem.query` (rag_system.py:382-486).  Guards in source
order: no client → fixed client message; `self.index is None or not
self.documents` → fixed not-initialized message; question embedding failed →
fixed embedding-failure message.  Then the clamped nearest-neighbor search,
positional lookup of the retrieved records (out-of-range positions skipped),
and the chat call through the retrying wrapper; a chat failure degrades to an
error answer with empty sources.  The generated answer text is whatever the
chat call returns. -/
def rag_query (client : Bool) (provider : Provider) (g : Nat → Int)
    (chatCall : Nat → Except ApiError String)
    (index : Option (List Vec)) (documents : List (String × DocRecord))
    (question : PyStr) (top_k : Nat) : QueryResult :=
  if client = false then ⟨clientUnavailableMsg, []⟩
  else if index = none ∨ documents = [] then ⟨notInitializedMsg, []⟩
  else
    match get_embedding client provider g question with
    | none => ⟨embedFailMsg, []⟩
    | some qv =>
      let hits := rag_search (index.getD []) qv top_k
      let retrieved := hits.filterMap fun h =>
        match documents.get? h.1 with
        | some kr => some (kr.2.source, kr.2.metadata)
        | none => none
      match chat_completion chatCall with
      | .ok ans => ⟨ans, dedupSources retrieved⟩
      | .error e => ⟨"Error generating answer: " ++ retryErrorName e, []⟩

/-- A chat call that always fails with a generic error. -/
def chatNever : Nat → Except ApiError String := fun _ => .error .other

/-- C8 (confirmed): searching an index of `n` vectors with a requested count
`k > n` returns exactly `n` results — `k` is clamped to the index size — and
the returned (squared) L2 distances are in ascending order. -/
theorem search_clamped_and_ranked (vecs : List Vec) (q : Vec) (k : Nat)
    (h : vecs.length < k) :
    (rag_search vecs q k).length = vecs.length
    ∧ List.Sorted (fun a b : Int => a ≤ b) ((rag_search vecs q k).map Prod.snd) := by
  have hmin : min k vecs.length = vecs.length := Nat.min_eq_right (Nat.le_of_lt h)
  have hlen : ((vecs.enum.map fun p => (p.1, sqL2 q p.2)).mergeSort
      fun a b => a.2 ≤ b.2).length = vecs.length := by
    simp
  constructor
  · unfold rag_search searchFlat
    rw [hmin]
    rw [List.take_of_length_le (le_of_eq hlen)]
    exact hlen
  · unfold rag_search searchFlat
    rw [hmin, List.take_of_length_le (le_of_eq hlen)]
    have hsorted := @List.sorted_mergeSort (Nat × Int)
      (fun a b => decide (a.2 ≤ b.2))
      (fun a b c hab hbc => by
        simp only [decide_eq_true_eq] at hab hbc ⊢
        exact le_trans hab hbc)
      (fun a b => by
        simp only [Bool.or_eq_true, decide_eq_true_eq]
        exact le_total a.2 b.2)
      (vecs.enum.map fun p => (p.1, sqL2 q p.2))
    refine List.Pairwise.map Prod.snd ?_ hsorted
    intro a b hab
    simpa using hab

/-- Witness for C8 at a concrete index of 2 vectors queried with `k = 5`. -/
theorem search_clamped_and_ranked_wit :
    (rag_search [[3], [0]] [0] 5).length = ([[3], [0]] : List Vec).length
    ∧ List.Sorted (fun a b : Int => a ≤ b) ((rag_search [[3], [0]] [0] 5).map Prod.snd) :=
  search_clamped_and_ranked [[3], [0]] [0] 5 (by decide)

/-- No-client runs never touch the index: without a configured client the
ingestion loop skips the embedding branch entirely. -/
theorem ingestItems_no_client_index (provider : Provider) (g : Nat → Int) (rm : Bool)
    (items : List (String × DocRecord)) :
    ∀ st : IngestState, (ingestItems false provider g rm items st).index = st.index := by
  induction items with
  | nil =>
    intro st
    rfl
  | cons it items ih =>
    intro st
    obtain ⟨d, r⟩ := it
    simp only [ingestItems]
    rw [ih]
    rfl

/-- No-client runs still store every record (fresh ids assumed). -/
theorem ingestItems_no_client_docs (provider : Provider) (g : Nat → Int) (rm : Bool)
    (items : List (String × DocRecord)) :
    ∀ st : IngestState, (storeKeys st.documents ++ items.map Prod.fst).Nodup →
      (ingestItems false provider g rm items st).documents.length
        = st.documents.length + items.length := by
  induction items with
  | nil =>
    intro st _
    simp [ingestItems]
  | cons it items ih =>
    intro st hnd
    obtain ⟨docId, rec⟩ := it
    have hparts := List.nodup_append.mp hnd
    have hfresh : docId ∉ storeKeys st.documents := by
      intro hmem
      exact hparts.2.2 hmem (by simp)
    have hdocs := ingestStep_documents false provider g rm docId rec st hfresh
    have hnd' : (storeKeys (ingestStep false provider g rm docId rec st).documents
        ++ items.map Prod.fst).Nodup := by
      rw [hdocs]
      unfold storeKeys
      simp only [List.map_append, List.map_cons, List.map_nil, List.append_assoc,
        List.singleton_append] at hnd ⊢
      exact hnd
    simp only [ingestItems]
    rw [ih _ hnd', hdocs]
    simp
    omega

/-- C5 (corrected): the fallback branch of `_get_embedding` does synthesize a
pseudo-random stub vector of the default dimensionality (1536) when invoked
without a client — but both ingestion and `query` test for the client before
ever calling it, so with no provider configured ingestion adds no vectors at
all to the index (while still storing every text record), and `query` returns
the fixed client-unavailable refusal without performing any retrieval. -/
theorem offline_fallback (provider : Provider) (g : Nat → Int) (text : PyStr) :
    get_embedding false provider g text = some (randVec g)
    ∧ (randVec g).length = EMBEDDING_DIMENSION
    ∧ (∀ (rm : Bool) (items : List (String × DocRecord)) (st : IngestState),
        (ingestItems false provider g rm items st).index = st.index)
    ∧ (∀ (chatCall : Nat → Except ApiError String) (index : Option (List Vec))
        (documents : List (String × DocRecord)) (question : PyStr) (top_k : Nat),
        rag_query false provider g chatCall index documents question top_k
          = ⟨clientUnavailableMsg, []⟩) := by
  refine ⟨rfl, by simp [randVec, EMBEDDING_DIMENSION], ?_, ?_⟩
  · intro rm items st
    exact ingestItems_no_client_index provider g rm items st
  · intro chatCall index documents question top_k
    unfold rag_query
    rw [if_pos rfl]

/-- C5 counterexample: with no client configured, ingesting two chunks stores
two records but leaves the index empty (no stub vectors are added), and a
query against a populated index/store still returns the early fixed refusal
message — the fallback never keeps retrieval operational. -/
theorem offline_fallback_cex :
    (ingestItems false provOkZero gZero false itemsTwo ⟨[], []⟩).documents.length = 2
    ∧ (ingestItems false provOkZero gZero false itemsTwo ⟨[], []⟩).index = []
    ∧ rag_query false provOkZero gZero chatNever (some [[0]])
        [("readme_0", mkChunkRecord "README.md" 0 ['x'])] ['q'] 5
        = ⟨clientUnavailableMsg, []⟩
    ∧ notInitializedMsg ≠ clientUnavailableMsg := by decide

/-- C7 (corrected): with a configured client, `query` on an uninitialized
system (index absent or store empty) returns the fixed not-initialized answer
with empty sources and no exception; but the client guard runs first, so with
no client configured the same uninitialized system gets the fixed
client-unavailable answer instead (still with empty sources, still no
exception). -/
theorem query_uninitialized (provider : Provider) (g : Nat → Int)
    (chatCall : Nat → Except ApiError String) (index : Option (List Vec))
    (documents : List (String × DocRecord)) (question : PyStr) (top_k : Nat) :
    (index = none ∨ documents = [] →
      rag_query true provider g chatCall index documents question top_k
        = ⟨notInitializedMsg, []⟩)
    ∧ rag_query false provider g chatCall index documents question top_k
        = ⟨clientUnavailableMsg, []⟩ := by
  constructor
  · intro h
    unfold rag_query
    rw [if_neg (by simp), if_pos h]
  · unfold rag_query
    rw [if_pos rfl]

/-- Witness for C7's amended theorem on a concrete empty system. -/
theorem query_uninitialized_wit :
    rag_query true provOkZero gZero chatNever none [] ['q'] 5
      = ⟨notInitializedMsg, []⟩ :=
  (query_uninitialized provOkZero gZero chatNever none [] ['q'] 5).1 (Or.inl rfl)

/-- C7 counterexample: an uninitialized system whose client is not configured
(a state `initialize` can produce, since it runs without a client) answers
with the client-unavailable message, not the not-initialized message the
claim promises for every uninitialized system. -/
theorem query_uninitialized_cex :
    rag_query false provOkZero gZero chatNever none [] ['q'] 5
      = ⟨clientUnavailableMsg, []⟩
    ∧ rag_query false provOkZero gZero chatNever none [] ['q'] 5
      ≠ ⟨notInitializedMsg, []⟩ := by decide

/-- JSON values as written by `json.dump` and read back by `json.load` for
the document store (rag_system.py:366-367, 379-380); object member order is
document order, which Python's `json` and `dict` both preserve. -/
inductive Json where
  | str (s : String)
  | num (n : Nat)
  | obj (fields : List (String × Json))

/-- Parse a JSON string value. -/
def decodeStr : Json → Option String
  | .str s => some s
  | _ => none

/-- Parse a JSON number value. -/
def decodeNum : Json → Option Nat
  | .num n => some n
  | _ => none

/-- Parse the `metadata` object back into a string-valued mapping, in member
order. -/
def decodeMetaFields : List (String × Json) → Option (List (String × String))
  | [] => some []
  | (k, v) :: rest => do
    let s ← decodeStr v
    let tail ← decodeMetaFields rest
    some ((k, s) :: tail)

/-- Serialize one Document Store record as the JSON object the code builds
(rag_system.py:95-103, 184-193): `content` and `source` always, `chunk_id`
for chunk records, `section` for report-section records, then `metadata`. -/
def encodeRecord (r : DocRecord) : Json :=
  .obj ([("content", Json.str (String.mk r.content)), ("source", Json.str r.source)]
    ++ (match r.chunkId with
        | some i => [("chunk_id", Json.num i)]
        | none => [])
    ++ (match r.sectionName with
        | some s => [("section", Json.str s)]
        | none => [])
    ++ [("metadata", Json.obj (r.metadata.map fun p => (p.1, Json.str p.2)))])

/-- Parse one record object: looks each field up by key and type-checks it;
absent `chunk_id`/`section` decode to `none`. -/
def decodeRecord (j : Json) : Option DocRecord :=
  match j with
  | .obj fields => do
    let contentJ ← fields.lookup "content"
    let content ← decodeStr contentJ
    let sourceJ ← fields.lookup "source"
    let source ← decodeStr sourceJ
    let chunkId ← match fields.lookup "chunk_id" with
      | none => some none
      | some v => (decodeNum v).map some
    let sectionName ← match fields.lookup "section" with
      | none => some none
      | some v => (decodeStr v).map some
    let metadataJ ← fields.lookup "metadata"
    let metadata ← match metadataJ with
      | .obj mfields => decodeMetaFields mfields
      | _ => none
    some ⟨content.data, source, chunkId, sectionName, metadata⟩
  | _ => none

/-- `RAGSystem.save` on the document store (rag_system.py:366-367):
`json.dump(self.documents, ...)` writes one object whose members are the
records in the dict's insertion order. -/
def save_documents (docs : List (String × DocRecord)) : Json :=
  .obj (docs.map fun p => (p.1, encodeRecord p.2))

/-- Parse the members of the persisted store object, in order. -/
def decodeStoreFields : List (String × Json) → Option (List (String × DocRecord))
  | [] => some []
  | (k, v) :: rest => do
    let r ← decodeRecord v
    let tail ← decodeStoreFields rest
    some ((k, r) :: tail)

/-- `RAGSystem.load` on the document store (rag_system.py:379-380):
`json.load` reads the object back into a dict in document member order. -/
def load_documents : Json → Option (List (String × DocRecord))
  | .obj fields => decodeStoreFields fields
  | _ => none

/-- A serialized `metadata` mapping decodes back to itself. -/
theorem decodeMetaFields_encode (l : List (String × String)) :
    decodeMetaFields (l.map fun p => (p.1, Json.str p.2)) = some l := by
  induction l with
  | nil => rfl
  | cons p l ih =>
    simp only [List.map_cons, decodeMetaFields, decodeStr, ih]
    rfl

/-- A serialized record decodes back to itself. -/
theorem decodeRecord_encode (r : DocRecord) : decodeRecord (encodeRecord r) = some r := by
  obtain ⟨content, source, chunkId, sectionName, metadata⟩ := r
  cases chunkId <;> cases sectionName <;>
    simp [encodeRecord, decodeRecord, decodeStr, decodeNum, List.lookup,
      decodeMetaFields_encode]

/-- Serialized store members decode back to themselves, in order. -/
theorem decodeStoreFields_encode (docs : List (String × DocRecord)) :
    decodeStoreFields (docs.map fun p => (p.1, encodeRecord p.2)) = some docs := by
  induction docs with
  | nil => rfl
  | cons p docs ih =>
    simp only [List.map_cons, decodeStoreFields, decodeRecord_encode, ih]
    rfl

/-- C9 (confirmed): saving the Document Store and loading it back yields the
identical mapping — every record round-trips and the keys come back in the
same insertion order. -/
theorem document_store_roundtrip (docs : List (String × DocRecord)) :
    load_documents (save_documents docs) = some docs
    ∧ (load_documents (save_documents docs)).map storeKeys = some (storeKeys docs) := by
  have h : load_documents (save_documents docs) = some docs := by
    unfold save_documents load_documents
    exact decodeStoreFields_encode docs
  exact ⟨h, by rw [h]; rfl⟩

/-- Exceptions the Python runtime can raise while reading/parsing files. -/
inductive PyError where
  | ioError
  | jsonError
  | otherError
deriving DecidableEq, Repr

/-- The environment a run of `RAGSystem.initialize` observes: whether the
persisted stores already exist and what loading them yields; the README read
result (`none` = file absent); each other markdown file as (stem, path, read
result); each present report block as (id prefix, source name, tool name for
analysis reports, extracted non-chunked sections or a parse error); and the
outcome of the final `save`. -/
structure InitEnv where
  storesExist : Bool
  loadResult : Except PyError IngestState
  readme : Option (Except PyError PyStr)
  otherDocs : List (String × String × Except PyError PyStr)
  reports : List (String × String × Option String × Except PyError (List (String × PyStr)))
  saveResult : Except PyError Unit

/-- Processing of one non-README markdown file inside its `try` block
(rag_system.py:124-150): a read/processing error is caught and logged, the
state is left as it was. -/
def processOtherDoc (client : Bool) (provider : Provider) (g : Nat → Int)
    (st : IngestState) (ent : String × String × Except PyError PyStr) : IngestState :=
  match ent.2.2 with
  | .error _ => st
  | .ok content =>
    ingestItems client provider g false
      (docItems ent.1 ent.2.1 (chunk_text content 1000 200)) st

/-- Processing of one report block inside its `try` block
(rag_system.py:158-201, 205-248, 252-289): an error is caught and logged. -/
def processReport (client : Bool) (provider : Provider) (g : Nat → Int)
    (st : IngestState)
    (ent : String × String × Option String × Except PyError (List (String × PyStr))) :
    IngestState :=
  match ent.2.2.2 with
  | .error _ => st
  | .ok sections =>
    ingestItems client provider g false (sectionItems ent.1 ent.2.1 ent.2.2.1 sections) st

/-- The README part of a fresh run (rag_system.py:84-113): absent file means
an untouched fresh state; a read error is NOT caught and propagates. -/
def processReadme (client : Bool) (provider : Provider) (g : Nat → Int)
    (readme : Option (Except PyError PyStr)) : Except PyError IngestState :=
  match readme with
  | none => .ok ⟨[], []⟩
  | some (.error e) => .error e
  | some (.ok content) =>
    .ok (ingestItems client provider g true
          (readmeItems (chunk_text content 1000 200)) ⟨[], []⟩)

/-- Model of `RAGSystem.initialize` (rag_system.py:50-77).  When both stores
exist and `force` is false, it loads them (a load failure propagates) and
returns `True`.  Otherwise it starts from a fresh index and empty store,
processes the README with NO surrounding `try` (rag_system.py:84-113: an
error here escapes `initialize`), processes the other markdown files and the
three report blocks each inside its own `try` (errors caught and logged),
saves (a save failure propagates), and returns `True`. -/
def rag_init (client : Bool) (provider : Provider) (g : Nat → Int)
    (env : InitEnv) (force : Bool) : Except PyError (Bool × IngestState) :=
  if env.storesExist ∧ force = false then
    match env.loadResult with
    | .ok st => .ok (true, st)
    | .error e => .error e
  else
    match processReadme client provider g env.readme with
    | .error e => .error e
    | .ok st1 =>
      let st2 := env.otherDocs.foldl (processOtherDoc client provider g) st1
      let st3 := env.reports.foldl (processReport client provider g) st2
      match env.saveResult with
      | .error e => .error e
      | .ok _ => .ok (true, st3)

/-- Model of the module-level wrapper `initialize_rag_system`
(rag_system.py:488-503): returns the flag `initialize` returned, or `False`
when an exception escaped it. -/
def init_rag_system (client : Bool) (provider : Provider) (g : Nat → Int)
    (env : InitEnv) (force : Bool) : Bool :=
  match rag_init client provider g env force with
  | .ok p => p.1
  | .error _ => false

/-- Folding the per-file processor over files that all fail to read leaves
the state unchanged (each error is caught per source). -/
theorem foldl_otherDocs_err (client : Bool) (provider : Provider) (g : Nat → Int)
    (l : List (String × String × PyError)) :
    ∀ st : IngestState,
      (l.map fun t => (t.1, t.2.1, (.error t.2.2 : Except PyError PyStr))).foldl
          (processOtherDoc client provider g) st = st := by
  induction l with
  | nil =>
    intro st
    rfl
  | cons t l ih =>
    intro st
    simp only [List.map_cons, List.foldl_cons]
    exact ih st

/-- Folding the report processor over reports that all fail leaves the state
unchanged. -/
theorem foldl_reports_err (client : Bool) (provider : Provider) (g : Nat → Int)
    (l : List (String × String × Option String × PyError)) :
    ∀ st : IngestState,
      (l.map fun t => (t.1, t.2.1, t.2.2.1,
          (.error t.2.2.2 : Except PyError (List (String × PyStr))))).foldl
          (processReport client provider g) st = st := by
  induction l with
  | nil =>
    intro st
    rfl
  | cons t l ih =>
    intro st
    simp only [List.map_cons, List.foldl_cons]
    exact ih st

/-- C10 (corrected): whenever `initialize` returns normally it returns
`True`, so the flag says nothing about whether any document was ingested —
in particular a run in which the README is absent and every other markdown
file and every report fails still reports success with an empty store.  But
not every per-source error is caught: README processing has no `try` block,
so a failing README makes `initialize` raise and the `initialize_rag_system`
wrapper return `False` (see the counterexample). -/
theorem init_returns_true :
    (∀ (client : Bool) (provider : Provider) (g : Nat → Int) (env : InitEnv)
        (force : Bool) (p : Bool × IngestState),
        rag_init client provider g env force = .ok p → p.1 = true)
    ∧ (∀ (client : Bool) (provider : Provider) (g : Nat → Int)
        (loadRes : Except PyError IngestState)
        (docsErr : List (String × String × PyError))
        (repErr : List (String × String × Option String × PyError)) (force : Bool),
        rag_init client provider g
            ⟨false, loadRes, none,
             docsErr.map (fun t => (t.1, t.2.1, .error t.2.2)),
             repErr.map (fun t => (t.1, t.2.1, t.2.2.1, .error t.2.2.2)),
             .ok ()⟩ force
          = .ok (true, ⟨[], []⟩)
        ∧ init_rag_system client provider g
            ⟨false, loadRes, none,
             docsErr.map (fun t => (t.1, t.2.1, .error t.2.2)),
             repErr.map (fun t => (t.1, t.2.1, t.2.2.1, .error t.2.2.2)),
             .ok ()⟩ force
          = true) := by
  constructor
  · intro client provider g env force p h
    unfold rag_init at h
    split at h
    · split at h
      · rename_i st heq
        rw [← Option.some.injEq] at h
        cases h
        rfl
      · cases h
    · split at h
      · cases h
      · split at h
        · cases h
        · rw [← Option.some.injEq] at h
          cases h
          rfl
  · intro client provider g loadRes docsErr repErr force
    have h1 : rag_init client provider g
        ⟨false, loadRes, none,
         docsErr.map (fun t => (t.1, t.2.1, .error t.2.2)),
         repErr.map (fun t => (t.1, t.2.1, t.2.2.1, .error t.2.2.2)),
         .ok ()⟩ force
        = .ok (true, ⟨[], []⟩) := by
      unfold rag_init
      rw [if_neg (by simp)]
      simp only [processReadme]
      rw [foldl_otherDocs_err, foldl_reports_err]
    exact ⟨h1, by unfold init_rag_system; rw [h1]⟩

/-- An environment in which nothing exists: no stores, no README, no other
markdown files, no reports. -/
def envEmpty : InitEnv := ⟨false, .ok ⟨[], []⟩, none, [], [], .ok ()⟩

/-- Witness for C10's amended theorem: a concrete all-missing environment
returns `ok` with the `True` flag, and a concrete all-failing-but-README
environment also succeeds. -/
theorem init_returns_true_wit :
    (true, (⟨[], []⟩ : IngestState)).1 = true
    ∧ rag_init false provOkZero gZero
        ⟨false, .ok ⟨[], []⟩, none,
         [("a", "a.md", PyError.ioError)].map (fun t => (t.1, t.2.1, .error t.2.2)),
         [("mistral", "Mistral Analysis", some "mistral", PyError.jsonError)].map
           (fun t => (t.1, t.2.1, t.2.2.1, .error t.2.2.2)),
         .ok ()⟩ false
        = .ok (true, ⟨[], []⟩) :=
  ⟨init_returns_true.1 false provOkZero gZero envEmpty false (true, ⟨[], []⟩) rfl,
   (init_returns_true.2 false provOkZero gZero (.ok ⟨[], []⟩)
      [("a", "a.md", PyError.ioError)]
      [("mistral", "Mistral Analysis", some "mistral", PyError.jsonError)] false).1⟩

/-- An environment in which the README exists but reading it raises. -/
def envReadmeFails : InitEnv := ⟨false, .ok ⟨[], []⟩, some (.error .ioError), [], [], .ok ()⟩

/-- C10 counterexample: a failing README source is not caught per source —
`initialize` propagates the error and the wrapper reports `False`, refuting
the claim that errors in any individual source file are caught and logged
and that a run in which every source fails still reports success. -/
theorem init_returns_true_cex :
    rag_init false provOkZero gZero envReadmeFails false = .error .ioError
    ∧ init_rag_system false provOkZero gZero envReadmeFails false = false :=
  ⟨rfl, rfl⟩
